import Mathlib

set_option maxRecDepth 8000

namespace AISol

/-! Shallow embedding of the generation pipeline of `backend/strands_agent.py`
and the task tracker of `backend/server.py`.

Conventions used throughout:
* Python text is modelled as Lean `String` / `List Char`; the ad hoc regular
  expressions of the source are translated into explicit scanning functions with
  the same leftmost-match, lazy-group semantics (each translation documents the
  pattern it mirrors).
* Python dictionaries and JSON values are modelled by the recursive type
  `PyVal`; Python floats are modelled as exact rationals.
* A call into an external collaborator (an MCP tool session) is modelled as an
  `Except String String` input: either the text the session produced, or the
  exception it raised.  A Python `try ... except` block over such a value is a
  `match` that maps `.error` to the fallback of that block.
-/

/-- ASCII whitespace, as matched by the regex class backslash-s and by
`str.strip` for the text this program handles. -/
def isPyWs (c : Char) : Bool :=
  c = ' ' || c = '\t' || c = '\n' || c = '\r' || c = '\x0b' || c = '\x0c'

/-- Drop leading whitespace characters. -/
def dropLeadWs : List Char → List Char
  | [] => []
  | c :: rest => if isPyWs c then dropLeadWs rest else c :: rest

/-- `str.strip()`: drop whitespace at both ends. -/
def stripL (l : List Char) : List Char :=
  dropLeadWs ((dropLeadWs l.reverse).reverse)

/-- `startsL pat l` holds when `pat` is a prefix of `l`. -/
def startsL : List Char → List Char → Bool
  | [], _ => true
  | _ :: _, [] => false
  | p :: ps, c :: cs => p == c && startsL ps cs

/-- Case-insensitive prefix test; the pattern is given already lowercased. -/
def ciStartsL : List Char → List Char → Bool
  | [], _ => true
  | _ :: _, [] => false
  | p :: ps, c :: cs => p == c.toLower && ciStartsL ps cs

/-- Index of the first occurrence of `pat` in the list (`re.search` on a literal). -/
def findSubIdx (pat : List Char) : List Char → Option Nat
  | [] => if pat.isEmpty then some 0 else none
  | c :: rest =>
    if startsL pat (c :: rest) then some 0
    else match findSubIdx pat rest with
      | some i => some (i + 1)
      | none => none

/-- Substring test (Python `pat in text`). -/
def containsSub (pat : List Char) (l : List Char) : Bool :=
  (findSubIdx pat l).isSome

/-- Case-insensitive variant of `findSubIdx`; the pattern is given lowercased. -/
def ciFindSubIdx (pat : List Char) (l : List Char) : Option Nat :=
  findSubIdx pat (l.map Char.toLower)

/-- Python `text.split` on a newline: every separator splits, empty pieces kept. -/
def splitLinesL : List Char → List (List Char)
  | [] => [[]]
  | c :: rest =>
    if c = '\n' then [] :: splitLinesL rest
    else match splitLinesL rest with
      | [] => [[c]]
      | h :: t => (c :: h) :: t

/-- A Python number, modelled as the exact decimal `mant / 10 ^ fexp`.  Every
number this program computes with is a decimal, so the representation is
exact; the binary rounding of the Python float is not modelled.  The smart
constructor `normTens` keeps the representation canonical (a mantissa not
divisible by ten unless the exponent is zero), so structural equality is value
equality. -/
structure PyNum where
  mant : ℤ
  fexp : ℕ
deriving DecidableEq

/-- Canonicalise a decimal by removing factors of ten shared between the
mantissa and the denominator exponent. -/
def normTens (n : ℤ) : ℕ → PyNum
  | 0 => ⟨n, 0⟩
  | e + 1 => if n % 10 = 0 then normTens (n / 10) e else ⟨n, e + 1⟩

/-- An integer as a decimal. -/
def pyInt (k : ℤ) : PyNum := ⟨k, 0⟩

/-- Strict positivity of a decimal (Python `x > 0`). -/
def pnPos (p : PyNum) : Bool := decide (0 < p.mant)

/-- Product of two decimals (Python `x * y` on these exact values). -/
def pnMul (a b : PyNum) : PyNum := normTens (a.mant * b.mant) (a.fexp + b.fexp)

/-- Build the decimal `±(ip.fp) * 10 ^ exp` from parsed digit values. -/
def pnFromDec (sgnNeg : Bool) (ipVal fpVal fpLen : ℕ) (exp : ℤ) : PyNum :=
  let base : ℤ := (ipVal * 10 ^ fpLen + fpVal : ℕ)
  let m : ℤ := if sgnNeg then -base else base
  if 0 ≤ exp then normTens (m * 10 ^ exp.toNat) fpLen
  else normTens m (fpLen + exp.natAbs)

/-- Python runtime values that this program passes around: JSON results and the
dictionaries the pipeline builds.  Floats are modelled as exact decimals. -/
inductive PyVal where
  | null : PyVal
  | bool : Bool → PyVal
  | num : PyNum → PyVal
  | str : String → PyVal
  | arr : List PyVal → PyVal
  | obj : List (String × PyVal) → PyVal

mutual

/-- Structural equality test on `PyVal` (Python `==` on these values). -/
def pyBeq : PyVal → PyVal → Bool
  | .null, .null => true
  | .bool a, .bool b => a == b
  | .num a, .num b => a == b
  | .str a, .str b => a == b
  | .arr a, .arr b => pyBeqList a b
  | .obj a, .obj b => pyBeqObj a b
  | _, _ => false

/-- Structural equality on lists of `PyVal`. -/
def pyBeqList : List PyVal → List PyVal → Bool
  | [], [] => true
  | a :: as, b :: bs => pyBeq a b && pyBeqList as bs
  | _, _ => false

/-- Structural equality on association lists of `PyVal`. -/
def pyBeqObj : List (String × PyVal) → List (String × PyVal) → Bool
  | [], [] => true
  | (k1, v1) :: as, (k2, v2) :: bs => k1 == k2 && pyBeq v1 v2 && pyBeqObj as bs
  | _, _ => false

end

/-- First binding of `key` in an association list (Python dictionary lookup;
the dictionaries built by this program have distinct keys). -/
def lookupField : List (String × PyVal) → String → Option PyVal
  | [], _ => none
  | (k, v) :: rest, key => if k = key then some v else lookupField rest key

/-- `d.get(key)` on a Python dictionary; `none` on a missing key or a non-dict. -/
def PyVal.get (p : PyVal) (key : String) : Option PyVal :=
  match p with
  | .obj fields => lookupField fields key
  | _ => none

/-- Two-level lookup, `d[k1][k2]` read with `.get` semantics. -/
def pyGet2 (p : PyVal) (k1 k2 : String) : Option PyVal :=
  match p.get k1 with
  | some v => v.get k2
  | none => none

/-- Python truthiness of the values that occur here (`bool(x)`). -/
def pyTruthy : PyVal → Bool
  | .null => false
  | .bool b => b
  | .num q => !(q.mant == 0)
  | .str s => !s.isEmpty
  | .arr l => !l.isEmpty
  | .obj l => !l.isEmpty

/-- Decimal digits of a natural number (Python rendering of an int). -/
def natDigits (n : Nat) : String := String.mk (Nat.toDigits 10 n)

/-- Two-digit zero-padded rendering (strftime small fields, cent digits). -/
def pad2 (n : Nat) : String := if n < 10 then "0" ++ natDigits n else natDigits n

/-- Four-digit zero-padded rendering (strftime year). -/
def pad4 (n : Nat) : String :=
  if n < 10 then "000" ++ natDigits n
  else if n < 100 then "00" ++ natDigits n
  else if n < 1000 then "0" ++ natDigits n
  else natDigits n

/-- The whole cents of the decimal `a / 10 ^ e`, rounded to nearest with ties
to even: the rounding used when a Python float is formatted with two decimal
places (exact on the decimal values this development evaluates). -/
def centsOf (a : ℕ) (e : ℕ) : ℕ :=
  if e ≤ 2 then a * 10 ^ (2 - e)
  else
    let d := 10 ^ (e - 2)
    let q := a / d
    let r := a % d
    if 2 * r < d then q
    else if d < 2 * r then q + 1
    else if q % 2 = 0 then q else q + 1

/-- The f-string dollar formatting used for every money value the extractor
emits: a dollar sign followed by the value with two decimal places. -/
def formatDollar (p : PyNum) : String :=
  let sign := if p.mant < 0 then "-" else ""
  let m := centsOf p.mant.natAbs p.fexp
  "$" ++ sign ++ natDigits (m / 100) ++ "." ++ pad2 (m % 100)

/-- Value of a list of decimal digit characters. -/
def digitsVal (l : List Char) : Nat :=
  l.foldl (fun a c => a * 10 + (c.toNat - 48)) 0

/-- Python `float(s)` on the decimal strings this program feeds it: optional
whitespace and sign, digits with an optional point, an optional exponent.
(`inf`, `nan` and underscores are not modelled; no input here uses them.) -/
def pyFloat (s : List Char) : Option PyNum :=
  let t := stripL s
  let (sgnNeg, t1) : Bool × List Char :=
    match t with
    | '-' :: r => (true, r)
    | '+' :: r => (false, r)
    | _ => (false, t)
  let ip := t1.takeWhile Char.isDigit
  let r1 := t1.dropWhile Char.isDigit
  let (fp, r2) : List Char × List Char :=
    match r1 with
    | '.' :: r => (r.takeWhile Char.isDigit, r.dropWhile Char.isDigit)
    | _ => ([], r1)
  if ip.isEmpty && fp.isEmpty then none
  else
    match r2 with
    | [] => some (pnFromDec sgnNeg (digitsVal ip) (digitsVal fp) fp.length 0)
    | e :: r3 =>
      if e == 'e' || e == 'E' then
        let (eNeg, r4) : Bool × List Char :=
          match r3 with
          | '-' :: r => (true, r)
          | '+' :: r => (false, r)
          | _ => (false, r3)
        let ed := r4.takeWhile Char.isDigit
        let r5 := r4.dropWhile Char.isDigit
        if ed.isEmpty || !r5.isEmpty then none
        else
          let ex : ℤ := if eNeg then -(digitsVal ed : ℤ) else (digitsVal ed : ℤ)
          some (pnFromDec sgnNeg (digitsVal ip) (digitsVal fp) fp.length ex)
      else none

/-- The opening and closing curly bracket characters. -/
def lbrace : Char := Char.ofNat 123

/-- The closing curly bracket character. -/
def rbrace : Char := Char.ofNat 125

/-- JSON insignificant whitespace. -/
def jSkipWs : List Char → List Char
  | [] => []
  | c :: rest =>
    if c = ' ' || c = '\t' || c = '\n' || c = '\r' then jSkipWs rest else c :: rest

/-- Value of one hexadecimal digit. -/
def hexVal (c : Char) : Option Nat :=
  if c.isDigit then some (c.toNat - 48)
  else if 'a' ≤ c && c ≤ 'f' then some (c.toNat - 87)
  else if 'A' ≤ c && c ≤ 'F' then some (c.toNat - 55)
  else none

/-- Single-character JSON string escapes. -/
def jEsc : Char → Option Char
  | '"' => some '"'
  | '\\' => some '\\'
  | '/' => some '/'
  | 'b' => some '\x08'
  | 'f' => some '\x0c'
  | 'n' => some '\n'
  | 'r' => some '\r'
  | 't' => some '\t'
  | _ => none

/-- Body of a JSON string (the opening quote already consumed); returns the
decoded characters and the input after the closing quote. -/
def jString : List Char → Option (List Char × List Char)
  | [] => none
  | '"' :: r => some ([], r)
  | '\\' :: 'u' :: h1 :: h2 :: h3 :: h4 :: r =>
    match hexVal h1, hexVal h2, hexVal h3, hexVal h4 with
    | some a, some b, some c, some d =>
      (jString r).map (fun p => (Char.ofNat (((a * 16 + b) * 16 + c) * 16 + d) :: p.1, p.2))
    | _, _, _, _ => none
  | '\\' :: e :: r =>
    match jEsc e with
    | some c => (jString r).map (fun p => (c :: p.1, p.2))
    | none => none
  | c :: r => (jString r).map (fun p => (c :: p.1, p.2))

/-- Exponent part of a JSON number, applied to the parsed digit parts. -/
def jExp (sgnNeg : Bool) (ipVal fpVal fpLen : ℕ) (r3 : List Char) :
    Option (PyNum × List Char) :=
  let (eNeg, r4) : Bool × List Char :=
    match r3 with
    | '-' :: r => (true, r)
    | '+' :: r => (false, r)
    | _ => (false, r3)
  let ed := r4.takeWhile Char.isDigit
  let r5 := r4.dropWhile Char.isDigit
  if ed.isEmpty then none
  else
    let ex : ℤ := if eNeg then -(digitsVal ed : ℤ) else (digitsVal ed : ℤ)
    some (pnFromDec sgnNeg ipVal fpVal fpLen ex, r5)

/-- A JSON number: sign, integer digits, optional fraction, optional exponent. -/
def jNumber (l : List Char) : Option (PyNum × List Char) :=
  let (sgnNeg, t1) : Bool × List Char :=
    match l with
    | '-' :: r => (true, r)
    | _ => (false, l)
  let ip := t1.takeWhile Char.isDigit
  let r1 := t1.dropWhile Char.isDigit
  if ip.isEmpty then none
  else
    let (fp, r2) : List Char × List Char :=
      match r1 with
      | '.' :: r => (r.takeWhile Char.isDigit, r.dropWhile Char.isDigit)
      | _ => ([], r1)
    match r2 with
    | 'e' :: r3 => jExp sgnNeg (digitsVal ip) (digitsVal fp) fp.length r3
    | 'E' :: r3 => jExp sgnNeg (digitsVal ip) (digitsVal fp) fp.length r3
    | _ => some (pnFromDec sgnNeg (digitsVal ip) (digitsVal fp) fp.length 0, r2)

mutual

/-- Fueled recursive-descent JSON value parser. -/
def jParse : Nat → List Char → Option (PyVal × List Char)
  | 0, _ => none
  | fuel + 1, l =>
    match jSkipWs l with
    | [] => none
    | 'n' :: 'u' :: 'l' :: 'l' :: r => some (.null, r)
    | 't' :: 'r' :: 'u' :: 'e' :: r => some (.bool true, r)
    | 'f' :: 'a' :: 'l' :: 's' :: 'e' :: r => some (.bool false, r)
    | '"' :: r => (jString r).map (fun p => (.str (String.mk p.1), p.2))
    | '[' :: r =>
      match jSkipWs r with
      | ']' :: r1 => some (.arr [], r1)
      | r1 => (jItems fuel r1).map (fun p => (.arr p.1, p.2))
    | c :: r =>
      if c = lbrace then
        match jSkipWs r with
        | [] => none
        | d :: r1 =>
          if d = rbrace then some (.obj [], r1)
          else (jFields fuel (d :: r1)).map (fun p => (.obj p.1, p.2))
      else if c = '-' || c.isDigit then
        (jNumber (c :: r)).map (fun p => (.num p.1, p.2))
      else none

/-- Comma-separated JSON array items, up to the closing square bracket. -/
def jItems : Nat → List Char → Option (List PyVal × List Char)
  | 0, _ => none
  | fuel + 1, l =>
    match jParse fuel l with
    | none => none
    | some (v, r) =>
      match jSkipWs r with
      | ',' :: r1 => (jItems fuel r1).map (fun p => (v :: p.1, p.2))
      | ']' :: r1 => some ([v], r1)
      | _ => none

/-- Comma-separated JSON object members, up to the closing curly bracket. -/
def jFields : Nat → List Char → Option (List (String × PyVal) × List Char)
  | 0, _ => none
  | fuel + 1, l =>
    match jSkipWs l with
    | '"' :: r =>
      match jString r with
      | none => none
      | some (k, r1) =>
        match jSkipWs r1 with
        | ':' :: r2 =>
          match jParse fuel r2 with
          | none => none
          | some (v, r3) =>
            match jSkipWs r3 with
            | ',' :: r4 => (jFields fuel r4).map (fun p => ((String.mk k, v) :: p.1, p.2))
            | d :: r4 => if d = rbrace then some ([(String.mk k, v)], r4) else none
            | [] => none
        | _ => none
    | _ => none

end

/-- `json.loads`, modelled for the JSON this program consumes.  Duplicate keys
keep the first binding here where the Python dict keeps the last; every input
in this development has distinct keys. -/
def json_loads (s : String) : Option PyVal :=
  match jParse (s.data.length + 2) s.data with
  | some (v, rest) => if (jSkipWs rest).isEmpty then some v else none
  | none => none

/-! Template extraction (`_extract_cf_template` and its fallbacks). -/

/-- The CloudFormation version marker searched for by the extractor. -/
def awsMarker : List Char := "AWSTemplateFormatVersion".data

/-- Content of the first fenced block opened by the given lowercased tag:
mirrors a regex of shape tag, whitespace, lazy group, whitespace, closing
fence, with DOTALL and IGNORECASE.  The lazy group runs from the end of the
opening tag to the first later fence; the whitespace the regex absorbs is
removed together with the strip the caller performs. -/
def taggedFence (tagLower : List Char) (text : List Char) : Option (List Char) :=
  match ciFindSubIdx tagLower text with
  | none => none
  | some i =>
    let after := text.drop (i + tagLower.length)
    match findSubIdx ("```".data) after with
    | none => none
    | some q => some (stripL (after.take q))

/-- Second template pattern: an untagged fence whose whitespace-skipped content
starts with the version marker and has a closing fence (case sensitive,
DOTALL).  Every position is scanned in order, as the regex engine does. -/
def fencedMarkerBlock : List Char → Option (List Char)
  | [] => none
  | c :: rest =>
    if startsL ("```".data) (c :: rest) then
      let after := dropLeadWs ((c :: rest).drop 3)
      if startsL awsMarker after then
        match findSubIdx ("```".data) (after.drop awsMarker.length) with
        | some q => some (stripL (awsMarker ++ (after.drop awsMarker.length).take q))
        | none => fencedMarkerBlock rest
      else fencedMarkerBlock rest
    else fencedMarkerBlock rest

/-- Third template pattern: the marker followed lazily by anything up to the
first blank line (a double newline lookahead) or the end of the text. -/
def markerScanBlock (text : List Char) : Option (List Char) :=
  match findSubIdx awsMarker text with
  | none => none
  | some i =>
    let tail := text.drop (i + awsMarker.length)
    match findSubIdx ("\n\n".data) tail with
    | none => some (stripL (awsMarker ++ tail))
    | some q => some (stripL (awsMarker ++ tail.take q))

/-- `_get_fallback_cf_template`: the fixed VPC-plus-two-subnets document. -/
def get_fallback_cf_template : String :=
  "AWSTemplateFormatVersion: \x272010-09-09\x27
Description: \x27Sample VPC with two subnets\x27

Resources:
  VPC:
    Type: AWS::EC2::VPC
    Properties:
      CidrBlock: 10.0.0.0/16
      EnableDnsHostnames: true
      EnableDnsSupport: true
      Tags:
        - Key: Name
          Value: SampleVPC

  PublicSubnet1:
    Type: AWS::EC2::Subnet
    Properties:
      VpcId: !Ref VPC
      CidrBlock: 10.0.1.0/24
      AvailabilityZone: !Select [0, !GetAZs \x27\x27]
      MapPublicIpOnLaunch: true
      Tags:
        - Key: Name
          Value: PublicSubnet1

  PublicSubnet2:
    Type: AWS::EC2::Subnet
    Properties:
      VpcId: !Ref VPC
      CidrBlock: 10.0.2.0/24
      AvailabilityZone: !Select [1, !GetAZs \x27\x27]
      MapPublicIpOnLaunch: true
      Tags:
        - Key: Name
          Value: PublicSubnet2

Outputs:
  VPCId:
    Description: VPC ID
    Value: !Ref VPC
    Export:
      Name: !Sub \x27$\x7bAWS::StackName\x7d-VPC-ID\x27"

/-- `_generate_fallback_template`: the basic document used by the whole-pipeline
fallback `_get_fallback_data`. -/
def generate_fallback_template : String :=
  "AWSTemplateFormatVersion: \x272010-09-09\x27
Description: \x27AWS Architecture generated by Strands Agent\x27

Parameters:
  Environment:
    Type: String
    Default: prod
    AllowedValues: [dev, staging, prod]

Resources:
  # VPC
  VPC:
    Type: AWS::EC2::VPC
    Properties:
      CidrBlock: 10.0.0.0/16
      EnableDnsHostnames: true
      EnableDnsSupport: true
      Tags:
        - Key: Name
          Value: !Sub \x27$\x7bEnvironment\x7d-vpc\x27

  # Internet Gateway
  InternetGateway:
    Type: AWS::EC2::InternetGateway
    Properties:
      Tags:
        - Key: Name
          Value: !Sub \x27$\x7bEnvironment\x7d-igw\x27

  # Attach Internet Gateway to VPC
  InternetGatewayAttachment:
    Type: AWS::EC2::VPCGatewayAttachment
    Properties:
      InternetGatewayId: !Ref InternetGateway
      VpcId: !Ref VPC

Outputs:
  VPCId:
    Description: VPC ID
    Value: !Ref VPC
    Export:
      Name: !Sub \x27$\x7bEnvironment\x7d-vpc-id\x27
"

/-- `_extract_cf_template`: the three patterns in order, first match wins, the
fixed fallback document when none matches.  The try block of the source cannot
raise, so the surrounding except clause is not reachable. -/
def extract_cf_template (response : String) : String :=
  match taggedFence ("```yaml".data) response.data with
  | some t => String.mk t
  | none =>
    match fencedMarkerBlock response.data with
    | some t => String.mk t
    | none =>
      match markerScanBlock response.data with
      | some t => String.mk t
      | none => get_fallback_cf_template

/-- The `Type:` values of a CloudFormation-style document, read off its lines:
used to state which resources the fixed fallback templates declare. -/
def typeLines (t : String) : List String :=
  (splitLinesL t.data).filterMap fun l =>
    let s := stripL l
    if startsL ("Type: ".data) s then some (String.mk (s.drop 6)) else none

/-- The line-by-line marker scan of the unused helper `_parse_agent_response`
(collect lines from the marker on, stop at a blank line only once more than ten
lines were collected): the strategy the specification describes as the third
template pattern.  Defined to compare it against `_extract_cf_template`. -/
def scanLinesAux : Bool → Nat → List (List Char) → List (List Char)
  | _, _, [] => []
  | inYaml, count, line :: rest =>
    let inY := inYaml || containsSub awsMarker line || containsSub ("Resources:".data) line
    if inY then
      if (stripL line).isEmpty && count + 1 > 10 then [line]
      else line :: scanLinesAux inY (count + 1) rest
    else scanLinesAux inY count rest

/-- Join with newlines (Python joining of collected lines). -/
def joinNl : List (List Char) → List Char
  | [] => []
  | [l] => l
  | l :: rest => l ++ '\n' :: joinNl rest

/-- The template produced by the `_parse_agent_response` line scan, when any
line was collected. -/
def parse_agent_response_scan (response : String) : Option String :=
  match scanLinesAux false 0 (splitLinesL response.data) with
  | [] => none
  | ls => some (String.mk (joinNl ls))

/-! Pricing extraction (`_extract_pricing_data` and its fallbacks). -/

/-- A character the money-token class digits-or-comma accepts. -/
def isDigitComma (c : Char) : Bool := c.isDigit || c = ','

/-- Greedy body of the money token: digits and commas, then an optional point
followed by greedy digits. -/
def moneyBody (l : List Char) : List Char :=
  let ds := l.takeWhile isDigitComma
  match l.dropWhile isDigitComma with
  | '.' :: r2 => ds ++ '.' :: r2.takeWhile Char.isDigit
  | _ => ds

/-- The money group (optional dollar sign, digits or commas, optional decimal
part) when it matches exactly at this position. -/
def matchMoney : List Char → Option (List Char)
  | [] => none
  | '$' :: rest =>
    match rest with
    | c :: _ => if isDigitComma c then some ('$' :: moneyBody rest) else none
    | [] => none
  | c :: rest => if isDigitComma c then some (moneyBody (c :: rest)) else none

/-- First money token at or after this position but on the same line (the lazy
dot of the pattern does not cross a newline). -/
def findMoneyInLine : List Char → Option (List Char)
  | [] => none
  | c :: rest =>
    if c = '\n' then none
    else match matchMoney (c :: rest) with
      | some g => some g
      | none => findMoneyInLine rest

/-- The word cost (case-insensitively) followed by a money token, within the
current line. -/
def findCostThenMoney : List Char → Option (List Char)
  | [] => none
  | c :: rest =>
    if c = '\n' then none
    else if ciStartsL ("cost".data) (c :: rest) then
      match findMoneyInLine ((c :: rest).drop 4) with
      | some g => some g
      | none => findCostThenMoney rest
    else findCostThenMoney rest

/-- `re.search` for keyword, lazy dot, cost, lazy dot, money group (IGNORECASE,
no DOTALL): scan every start position for the keyword and complete the match
within that line. -/
def searchKwCostMoney (kwLower : List Char) : List Char → Option (List Char)
  | [] => none
  | c :: rest =>
    if ciStartsL kwLower (c :: rest) then
      match findCostThenMoney ((c :: rest).drop kwLower.length) with
      | some g => some g
      | none => searchKwCostMoney kwLower rest
    else searchKwCostMoney kwLower rest

/-- `re.search` for cost, lazy dot, money group (IGNORECASE, no DOTALL). -/
def searchCostMoney : List Char → Option (List Char)
  | [] => none
  | c :: rest =>
    if ciStartsL ("cost".data) (c :: rest) then
      match findMoneyInLine ((c :: rest).drop 4) with
      | some g => some g
      | none => searchCostMoney rest
    else searchCostMoney rest

/-- Strip dollar signs and commas from a matched money group. -/
def cleanMoney (g : List Char) : List Char :=
  g.filter (fun c => !(c == '$') && !(c == ','))

/-- Third pricing pattern (cost then money); an unparseable group leaves the
total at zero, as the loop of the source does. -/
def regexTotalP3 (text : List Char) : PyNum :=
  match searchCostMoney text with
  | some g => (pyFloat (cleanMoney g)).getD (pyInt 0)
  | none => pyInt 0

/-- Second pricing pattern (monthly, cost, money), falling through to the
third on a missing match or a ValueError. -/
def regexTotalP2 (text : List Char) : PyNum :=
  match searchKwCostMoney ("monthly".data) text with
  | some g =>
    match pyFloat (cleanMoney g) with
    | some v => v
    | none => regexTotalP3 text
  | none => regexTotalP3 text

/-- The regex-extracted monthly total: the three patterns tried in order, a
parse failure on a matched group falling through to the next pattern, zero if
nothing parses. -/
def regexTotal (response : String) : PyNum :=
  match searchKwCostMoney ("total".data) response.data with
  | some g =>
    match pyFloat (cleanMoney g) with
    | some v => v
    | none => regexTotalP2 response.data
  | none => regexTotalP2 response.data

/-- The service-name substrings recognised in breakdown lines. -/
def breakdown_services : List (List Char) :=
  ["ec2", "s3", "rds", "vpc", "lambda", "nat", "elastic"].map String.data

/-- Breakdown entries of the regex path: one entry per line holding a dollar
sign and a known service substring (case-insensitively). -/
def breakdownItems (response : String) : List PyVal :=
  (splitLinesL response.data).filterMap fun line =>
    if line.contains '$' &&
        breakdown_services.any (fun s => containsSub s (line.map Char.toLower)) then
      some (.obj [("service", .str "AWS Service"),
                  ("cost", .str (String.mk (stripL line))),
                  ("unit", .str "monthly"),
                  ("details", .str (String.mk (stripL line)))])
    else none

/-- The pricing dictionary built by the regex path of `_extract_pricing_data`. -/
def pricingFromRegex (response : String) : PyVal :=
  let total := regexTotal response
  let bd := breakdownItems response
  .obj [("totalMonthlyCost", .str (formatDollar total)),
        ("currency", .str "USD"),
        ("region", .str "us-east-1"),
        ("breakdown", .arr (if bd.isEmpty then
            [.obj [("service", .str "Various AWS Services"),
                   ("cost", .str (formatDollar total)),
                   ("unit", .str "monthly"),
                   ("details", .str "Estimated monthly cost")]]
          else bd)),
        ("annual", .num (if pnPos total then pnMul total (pyInt 12) else pyInt 0))]

/-- `d.get(k, default)` on the parsed JSON object. -/
def pjGetD (pj : PyVal) (k : String) (d : PyVal) : PyVal :=
  match pj with
  | .obj f => (lookupField f k).getD d
  | _ => d

/-- The numeric monthly total of the parsed JSON block: absent defaults to
zero, a string is float-converted after stripping dollar signs and commas
(raising ValueError when unparseable), a Python bool is an int, any other
type raises once the value is formatted or compared. -/
def jsonTotalCost (pj : PyVal) : Except String PyNum :=
  match pj with
  | .obj fields =>
    match lookupField fields "totalMonthlyCost" with
    | none => .ok (pyInt 0)
    | some (.num q) => .ok q
    | some (.bool b) => .ok (pyInt (if b then 1 else 0))
    | some (.str s) =>
      match pyFloat (cleanMoney s.data) with
      | some v => .ok v
      | none => .error "ValueError"
    | some _ => .error "TypeError"
  | _ => .error "AttributeError"

/-- Dollar-formatting of a breakdown money value; non-numeric values raise. -/
def fmtMoneyVal : PyVal → Except String String
  | .num q => .ok (formatDollar q)
  | .bool b => .ok (formatDollar (pyInt (if b then 1 else 0)))
  | _ => .error "TypeError"

/-- One converted breakdown entry of the JSON path. -/
def jsonBreakdownItem (item : PyVal) : Except String PyVal :=
  match item with
  | .obj f =>
    let service := (lookupField f "service").getD (.str "Unknown")
    match fmtMoneyVal ((lookupField f "monthlyCost").getD (.num (pyInt 0))) with
    | .error e => .error e
    | .ok cost =>
      let d1 := (lookupField f "description").getD (.str "")
      let details := if pyTruthy d1 then d1 else (lookupField f "details").getD (.str "")
      .ok (.obj [("service", service), ("cost", .str cost),
                 ("unit", .str "monthly"), ("details", details)])
  | _ => .error "AttributeError"

/-- Convert each breakdown entry, propagating the first raised error. -/
def traverseBd : List PyVal → Except String (List PyVal)
  | [] => .ok []
  | x :: xs =>
    match jsonBreakdownItem x with
    | .error e => .error e
    | .ok y =>
      match traverseBd xs with
      | .error e => .error e
      | .ok ys => .ok (y :: ys)

/-- The converted breakdown list of the JSON path; iterating a non-list
raises unless the iteration is empty (an empty string or dict yields no
items in Python). -/
def jsonBreakdown (pj : PyVal) : Except String (List PyVal) :=
  match pj with
  | .obj f =>
    match (lookupField f "breakdown").getD (.arr []) with
    | .arr items => traverseBd items
    | .str s => if s.isEmpty then .ok [] else .error "AttributeError"
    | .obj l => if l.isEmpty then .ok [] else .error "AttributeError"
    | _ => .error "TypeError"
  | _ => .error "AttributeError"

/-- The pricing dictionary built from a parsed JSON block.  The source raises
the type errors of the total only when it formats the total, after the
breakdown loop; the error is surfaced here at extraction, which reaches the
same fallback. -/
def pricingFromJson (pj : PyVal) : Except String PyVal :=
  match jsonTotalCost pj with
  | .error e => .error e
  | .ok total =>
    match jsonBreakdown pj with
    | .error e => .error e
    | .ok bd =>
      .ok (.obj [("totalMonthlyCost", .str (formatDollar total)),
                 ("currency", pjGetD pj "currency" (.str "USD")),
                 ("region", pjGetD pj "region" (.str "us-east-1")),
                 ("breakdown", .arr bd),
                 ("annual", .num (if pnPos total then pnMul total (pyInt 12) else pyInt 0))])

/-- `_get_fallback_pricing`: the fixed zero-cost dictionary substituted when
the pricing stage or its extraction raises. -/
def get_fallback_pricing : PyVal :=
  .obj [("totalMonthlyCost", .str "$0.00"),
        ("currency", .str "USD"),
        ("region", .str "us-east-1"),
        ("breakdown", .arr [.obj [("service", .str "VPC"),
                                  ("cost", .str "$0.00"),
                                  ("unit", .str "monthly"),
                                  ("details", .str "VPC is free")]]),
        ("annual", .num (pyInt 0))]

/-- Decode the stripped content of the JSON fence and convert it (a failed
decode raises). -/
def pricingFromJsonStr (s : String) : Except String PyVal :=
  match json_loads s with
  | none => .error "JSONDecodeError"
  | some pj => pricingFromJson pj

/-- The body of `_extract_pricing_data`: a tagged JSON fence is preferred (a
failed decode raises, reaching the except clause), otherwise the regex path
runs (that path cannot raise). -/
def extract_pricing_data_result (response : String) : Except String PyVal :=
  match taggedFence ("```json".data) response.data with
  | some js => pricingFromJsonStr (String.mk js)
  | none => .ok (pricingFromRegex response)

/-- The except clause of `_extract_pricing_data`: a raised error degrades to
the fixed fallback dictionary. -/
def handlePricing (r : Except String PyVal) : PyVal :=
  match r with
  | .ok p => p
  | .error _ => get_fallback_pricing

/-- `_extract_pricing_data` with its surrounding try and except clause. -/
def extract_pricing_data (response : String) : PyVal :=
  handlePricing (extract_pricing_data_result response)

/-! Diagram stage (`_extract_and_save_diagram` and its fallback). -/

/-- The wall-clock instant `datetime.now()` returns. -/
structure PyDateTime where
  year : Nat
  month : Nat
  day : Nat
  hour : Nat
  minute : Nat
  second : Nat
  microsecond : Nat
deriving DecidableEq

/-- `strftime` with the year-month-day underscore hour-minute-second format
used for diagram filenames: note that the microsecond field is not rendered. -/
def strftime_ymd_hms (t : PyDateTime) : String :=
  pad4 t.year ++ pad2 t.month ++ pad2 t.day ++ "_" ++
    pad2 t.hour ++ pad2 t.minute ++ pad2 t.second

/-- The filename `_extract_and_save_diagram` writes for one generation. -/
def diagram_filename (t : PyDateTime) : String :=
  "architecture_" ++ strftime_ymd_hms t ++ ".png"

/-- `_get_fallback_diagram_url`: the placeholder sentinel. -/
def get_fallback_diagram_url : String := "/diagram/sample.png"

/-- Outcome of the pattern-matching and filesystem part of
`_extract_and_save_diagram` for one response: a base64 payload matched,
decoded and was written; a matched file path existed and was copied; no
pattern produced a saved file; or some step raised.  The branches of the
source return the served path of the written file in the first two cases and
the fixed fallback in the last two; the bytes written are outside the
embedding, the returned reference is modelled exactly. -/
inductive DiagramOutcome where
  | base64Saved : DiagramOutcome
  | fileCopied : DiagramOutcome
  | noMatch : DiagramOutcome
  | raised : DiagramOutcome
deriving DecidableEq

/-- `_extract_and_save_diagram`: the reference returned for each outcome,
with the filename generated from the current time. -/
def extract_and_save_diagram (now : PyDateTime) : DiagramOutcome → String
  | .base64Saved => "/diagram/" ++ diagram_filename now
  | .fileCopied => "/diagram/" ++ diagram_filename now
  | .noMatch => get_fallback_diagram_url
  | .raised => get_fallback_diagram_url

/-! The orchestrator (`generate_architecture` and the stage functions). -/

/-- The inputs one call of `generate_architecture` consumes: the requirements
text, the outcome of entering the three MCP client context managers, the text
produced (or exception raised) by each tool-augmented session, the wall clock
at the diagram save, and the diagram filesystem outcome. -/
structure AgentEnv where
  requirements : String
  enterClients : Except String Unit
  cfnSession : Except String String
  diagramSession : Except String String
  pricingSession : Except String String
  now : PyDateTime
  diagramFs : DiagramOutcome

/-- `_generate_cf_template`: extract from the session text, or fall back when
the session (tool discovery or agent run) raised. -/
def generate_cf_template (session : Except String String) : String :=
  match session with
  | .ok response => extract_cf_template response
  | .error _ => get_fallback_cf_template

/-- `_generate_diagram`: extract and save from the session text, or fall back
when the session raised. -/
def generate_diagram (session : Except String String) (now : PyDateTime)
    (fs : DiagramOutcome) : String :=
  match session with
  | .ok _response => extract_and_save_diagram now fs
  | .error _ => get_fallback_diagram_url

/-- `_calculate_pricing`: extract from the session text, or fall back when the
session raised.  The resource summary `_extract_resources_for_pricing` builds
from the template shapes only the prompt sent to the session (and itself falls
back to a fixed listing on a parse error); it does not touch the returned
value, so it is absorbed into the session input here. -/
def calculate_pricing (session : Except String String) : PyVal :=
  match session with
  | .ok response => extract_pricing_data response
  | .error _ => get_fallback_pricing

/-- `_get_fallback_data`: the whole-pipeline fallback dictionary.  Its pricing
uses the key totalMonthly (not totalMonthlyCost), numeric costs, and the keys
type and description in its single breakdown entry. -/
def get_fallback_data : PyVal :=
  .obj [("cfTemplate", .str generate_fallback_template),
        ("pricing", .obj [("totalMonthly", .num (pyInt 125)),
                          ("currency", .str "USD"),
                          ("region", .str "us-east-1"),
                          ("breakdown", .arr [.obj [("service", .str "AWS Services"),
                                                    ("cost", .num (pyInt 125)),
                                                    ("type", .str "general"),
                                                    ("description", .str "Estimated cost based on requirements")]]),
                          ("annual", .num (pyInt 1500))]),
        ("diagramUrl", .str "/diagram/sample.png")]

/-- The try block of `generate_architecture`: enter the three client context
managers, then run the three stages in order.  Each stage catches its own
failures, so only entering (or exiting) the context managers can raise here. -/
def generate_architecture_body (env : AgentEnv) : Except String PyVal :=
  match env.enterClients with
  | .error e => .error e
  | .ok _ =>
    let cf := generate_cf_template env.cfnSession
    let diagramUrl := generate_diagram env.diagramSession env.now env.diagramFs
    let pricing := calculate_pricing env.pricingSession
    .ok (.obj [("cfTemplate", .str cf),
               ("diagramUrl", .str diagramUrl),
               ("pricing", pricing)])

/-- `generate_architecture`: the try block with its except clause, which
degrades any raised exception to the whole-pipeline fallback dictionary.
(As in Python, exits outside the `Exception` hierarchy such as
KeyboardInterrupt are not modelled.) -/
def generate_architecture (env : AgentEnv) : Except String PyVal :=
  match generate_architecture_body env with
  | .ok r => .ok r
  | .error _ => .ok get_fallback_data

/-! Task tracker (`server.py`: `active_tasks`, `start_generation`,
`run_generation_task`, `get_generation_status`). -/

/-- One record of the `active_tasks` map.  The dictionaries of the source
carry these seven keys from creation on; no key is ever added or removed.
The progress percentage is a natural number. -/
structure TaskRec where
  status : String
  progress : Nat
  message : String
  started_at : String
  completed_at : Option String
  data : Option PyVal
  error : Option String

/-- The record `start_generation` inserts before returning the task id.
The emoji prefixes of the human-readable messages are elided. -/
def initTaskRec (startedAt : String) : TaskRec :=
  { status := "started"
    progress := 0
    message := "Starting architecture generation..."
    started_at := startedAt
    completed_at := none
    data := none
    error := none }

/-- The inputs one run of `run_generation_task` consumes: whether
`connect_to_mcp_servers` had marked the clients initialized, the inputs of the
`generate_architecture` call, and the completion wall-clock rendering. -/
structure GenTaskEnv where
  clientsInitialized : Bool
  agentEnv : AgentEnv
  completedAt : String

/-- The five record states written by the except clause of
`run_generation_task`, in write order: status, progress (reset to zero),
message, error, completion time. -/
def failSteps (t : TaskRec) (ts e : String) : List TaskRec :=
  let f1 := { t with status := "failed" }
  let f2 := { f1 with progress := 0 }
  let f3 := { f2 with message := "Generation failed" }
  let f4 := { f3 with error := some e }
  let f5 := { f4 with completed_at := some ts }
  [f1, f2, f3, f4, f5]

/-- The trace of record states `run_generation_task` writes, one entry per
field assignment, starting from the record `start_generation` inserted.  A
poll may observe any entry of the trace (and the initial record before it). -/
def run_generation_task (env : GenTaskEnv) (t0 : TaskRec) : List TaskRec :=
  let t1 := { t0 with status := "generating_cf" }
  let t2 := { t1 with progress := 10 }
  let t3 := { t2 with message := "Generating CloudFormation template..." }
  if env.clientsInitialized then
    let t4 := { t3 with progress := 20 }
    let t5 := { t4 with message := "Creating AWS architecture..." }
    match generate_architecture env.agentEnv with
    | .ok response =>
      let c1 := { t5 with status := "completed" }
      let c2 := { c1 with progress := 100 }
      let c3 := { c2 with message := "Architecture generation complete!" }
      let c4 := { c3 with data := some response }
      let c5 := { c4 with completed_at := some env.completedAt }
      [t1, t2, t3, t4, t5, c1, c2, c3, c4, c5]
    | .error e => [t1, t2, t3, t4, t5] ++ failSteps t5 env.completedAt e
  else
    [t1, t2, t3] ++
      failSteps t3 env.completedAt
        "Strands agent not initialized - MCP servers not connected"

/-- The process-wide task map. -/
def TaskMap := List (String × TaskRec)

/-- Set a key of the task map (Python dict assignment). -/
def setTask : List (String × TaskRec) → String → TaskRec → List (String × TaskRec)
  | [], id, r => [(id, r)]
  | (k, v) :: rest, id, r =>
    if k = id then (k, r) :: rest else (k, v) :: setTask rest id r

/-- Look a task up (`task_id in active_tasks` plus the read). -/
def lookupTask : List (String × TaskRec) → String → Option TaskRec
  | [], _ => none
  | (k, v) :: rest, id => if k = id then some v else lookupTask rest id

/-- Write one field of an existing record (the background task mutates only
records previously inserted under its own id; a write to an absent key would
raise in Python and touches nothing here). -/
def updateTask : List (String × TaskRec) → String → (TaskRec → TaskRec) → List (String × TaskRec)
  | [], _, _ => []
  | (k, v) :: rest, id, f =>
    if k = id then (k, f v) :: rest else (k, v) :: updateTask rest id f

/-- Every mutation the server applies to `active_tasks`: insertion of a fresh
record by `start_generation`, a single field write by the background task, or
a read-only poll by `get_generation_status`.  No operation deletes a key
(the source has no del, pop or clear on the map). -/
inductive ServerOp where
  | start : String → String → ServerOp
  | taskWrite : String → (TaskRec → TaskRec) → ServerOp
  | poll : String → ServerOp

/-- Apply one operation to the task map. -/
def applyOp (m : List (String × TaskRec)) : ServerOp → List (String × TaskRec)
  | .start id startedAt => setTask m id (initTaskRec startedAt)
  | .taskWrite id f => updateTask m id f
  | .poll _ => m

/-- Apply a sequence of operations to the task map. -/
def applyOps (m : List (String × TaskRec)) : List ServerOp → List (String × TaskRec)
  | [] => m
  | op :: ops => applyOps (applyOp m op) ops

/-! Fixed values and concrete inputs used by the statements below. -/

/-- The single fixed zero-cost line item the regex path substitutes for an
empty breakdown. -/
def variousItem : PyVal :=
  .obj [("service", .str "Various AWS Services"),
        ("cost", .str "$0.00"),
        ("unit", .str "monthly"),
        ("details", .str "Estimated monthly cost")]

/-- The pricing dictionary the extractor returns on an extraction miss (no
JSON block, no pattern total, no currency-symbol service line). -/
def regexMissPricing : PyVal :=
  .obj [("totalMonthlyCost", .str "$0.00"),
        ("currency", .str "USD"),
        ("region", .str "us-east-1"),
        ("breakdown", .arr [variousItem]),
        ("annual", .num (pyInt 0))]

/-- A wall-clock instant used by the concrete inputs below. -/
def demoNow : PyDateTime :=
  { year := 2026, month := 10, day := 12, hour := 9, minute := 30
    second := 0, microsecond := 100 }

/-- An environment whose template session returns an empty tagged fence and
whose other sessions raise. -/
def emptyFenceEnv : AgentEnv :=
  { requirements := "3-tier web app"
    enterClients := .ok ()
    cfnSession := .ok "```yaml\n```"
    diagramSession := .error "ConnectionError"
    pricingSession := .error "ConnectionError"
    now := demoNow
    diagramFs := .noMatch }

/-- An environment in which entering the client context managers raises. -/
def initFailEnv : AgentEnv :=
  { requirements := "3-tier web app"
    enterClients := .error "MCPClientInitializationError"
    cfnSession := .error "unreached"
    diagramSession := .error "unreached"
    pricingSession := .error "unreached"
    now := demoNow
    diagramFs := .raised }

/-- A task environment whose clients were never marked initialized: the
background task reaches progress ten and then fails. -/
def uninitGenEnv : GenTaskEnv :=
  { clientsInitialized := false
    agentEnv := initFailEnv
    completedAt := "2026-10-12T09:30:05" }

/-- Stage-one output containing all three template patterns at once. -/
def tmplAllInput : String :=
  "```yaml\nkeep: this\n```\n```\nAWSTemplateFormatVersion: fence\n```\n\nAWSTemplateFormatVersion: scan"

/-- Stage-one output with an untagged marker fence and a later bare marker. -/
def tmplFenceInput : String :=
  "text\n```\nAWSTemplateFormatVersion: fence\n```\nAWSTemplateFormatVersion: scan"

/-- Stage-one output where only the bare marker scan matches. -/
def tmplScanInput : String :=
  "text AWSTemplateFormatVersion: scan-only\nmore\n\ntail"

/-- Stage-one output whose marker is followed by a blank line and then more
than ten further lines. -/
def markerBlankInput : String :=
  "AWSTemplateFormatVersion: \x272010-09-09\x27\n\nResources:\n  A\n  B\n  C\n  D\n  E\n  F\n  G\n  H\n  I"

/-- Stage-three output holding an empty JSON object: no monetary value
anywhere. -/
def emptyJsonInput : String := "```json\n\x7b\x7d\n```"

/-- Stage-three output with a fenced structured block carrying a decimal
monthly total. -/
def totalJsonInput : String := "```json\n\x7b\"totalMonthlyCost\": 42.5\x7d\n```"

/-- An instant during one generation run. -/
def nowA : PyDateTime := ⟨2026, 10, 12, 9, 30, 0, 100⟩

/-- An instant during a second generation run, inside the same second as
`nowA` (only the microseconds differ). -/
def nowB : PyDateTime := ⟨2026, 10, 12, 9, 30, 0, 999⟩

/-! Helper lemmas. -/

/-- The shape proposition shared by every pricing dictionary the extractor
can return. -/
def pricingShape (p : PyVal) : Prop :=
  ∃ q cur reg bd,
    p = .obj [("totalMonthlyCost", .str (formatDollar q)),
              ("currency", cur),
              ("region", reg),
              ("breakdown", .arr bd),
              ("annual", .num (if pnPos q then pnMul q (pyInt 12) else pyInt 0))]

/-- The fixed fallback pricing dictionary has the common shape. -/
theorem fallback_pricing_shape : pricingShape get_fallback_pricing := by
  refine ⟨pyInt 0, .str "USD", .str "us-east-1",
    [.obj [("service", .str "VPC"), ("cost", .str "$0.00"),
           ("unit", .str "monthly"), ("details", .str "VPC is free")]], ?_⟩
  rfl

/-- The regex-path dictionary has the common shape. -/
theorem pricingFromRegex_shape (resp : String) : pricingShape (pricingFromRegex resp) :=
  ⟨regexTotal resp, .str "USD", .str "us-east-1",
    (if (breakdownItems resp).isEmpty then
        [.obj [("service", .str "Various AWS Services"),
               ("cost", .str (formatDollar (regexTotal resp))),
               ("unit", .str "monthly"),
               ("details", .str "Estimated monthly cost")]]
      else breakdownItems resp), rfl⟩

/-- A JSON-path dictionary has the common shape. -/
theorem pricingFromJson_shape (pj : PyVal) (p : PyVal)
    (h : pricingFromJson pj = .ok p) : pricingShape p := by
  unfold pricingFromJson at h
  rcases h3 : jsonTotalCost pj with e | total <;> rw [h3] at h
  · simp at h
  · rcases h4 : jsonBreakdown pj with e | bd <;> rw [h4] at h
    · simp at h
    · simp only [Except.ok.injEq] at h
      exact ⟨total, _, _, bd, h.symm⟩

/-- A decoded JSON fence that converts successfully has the common shape. -/
theorem pricingFromJsonStr_ok_shape (s : String) (p : PyVal)
    (h : pricingFromJsonStr s = .ok p) : pricingShape p := by
  unfold pricingFromJsonStr at h
  rcases h2 : json_loads s with _ | pj <;> rw [h2] at h
  · simp at h
  · exact pricingFromJson_shape pj p h

/-- The except clause preserves the common shape: a result that is well shaped
whenever it is ok degrades to the (well shaped) fallback otherwise. -/
theorem handled_pricing_shape (r : Except String PyVal)
    (hok : ∀ p, r = .ok p → pricingShape p) :
    pricingShape (handlePricing r) := by
  cases r with
  | ok p => exact hok p rfl
  | error e => exact fallback_pricing_shape

/-- Every pricing dictionary the extractor returns carries the same five keys,
a dollar-formatted total and an annual computed from one extracted decimal. -/
theorem extract_pricing_data_shape (resp : String) :
    pricingShape (extract_pricing_data resp) := by
  unfold extract_pricing_data extract_pricing_data_result
  rcases h1 : taggedFence ("```json".data) resp.data with _ | js
  · exact handled_pricing_shape _ (fun p hp => by
      rw [Except.ok.injEq] at hp
      rw [← hp]
      exact pricingFromRegex_shape resp)
  · exact handled_pricing_shape _ (pricingFromJsonStr_ok_shape (String.mk js))

/-- The totalMonthlyCost key is present in every extracted pricing result. -/
theorem extract_pricing_total_key (resp : String) :
    ((extract_pricing_data resp).get "totalMonthlyCost").isSome = true := by
  obtain ⟨q, cur, reg, bd, h⟩ := extract_pricing_data_shape resp
  rw [h]; rfl

/-- An extraction miss (no fenced JSON block, no pattern-extracted total, no
currency-symbol service line) yields exactly the fixed zero-cost dictionary of
the regex path. -/
theorem extract_pricing_regex_miss (resp : String)
    (h1 : taggedFence ("```json".data) resp.data = none)
    (h2 : breakdownItems resp = [])
    (h3 : regexTotal resp = pyInt 0) :
    extract_pricing_data resp = regexMissPricing := by
  unfold extract_pricing_data extract_pricing_data_result
  rw [h1]
  show pricingFromRegex resp = regexMissPricing
  unfold pricingFromRegex
  rw [h2, h3]
  rfl

/-- The diagram stage always returns a reference under the diagram route. -/
theorem generate_diagram_ref (session : Except String String) (now : PyDateTime)
    (fs : DiagramOutcome) : ∃ su, generate_diagram session now fs = "/diagram/" ++ su := by
  cases session with
  | error e => exact ⟨"sample.png", rfl⟩
  | ok resp =>
    cases fs with
    | base64Saved => exact ⟨diagram_filename now, rfl⟩
    | fileCopied => exact ⟨diagram_filename now, rfl⟩
    | noMatch => exact ⟨"sample.png", rfl⟩
    | raised => exact ⟨"sample.png", rfl⟩

/-- Setting a key and reading it back gives the record just written. -/
theorem lookupTask_setTask_self (m : List (String × TaskRec)) (id : String) (r : TaskRec) :
    lookupTask (setTask m id r) id = some r := by
  induction m with
  | nil => simp [setTask, lookupTask]
  | cons kv rest ih =>
    obtain ⟨k, v⟩ := kv
    by_cases h : k = id
    · simp [setTask, lookupTask, h]
    · simp [setTask, lookupTask, h, ih]

/-- Setting any key preserves the presence of every present key. -/
theorem lookupTask_setTask_isSome (m : List (String × TaskRec)) (i j : String)
    (r : TaskRec) (h : (lookupTask m j).isSome = true) :
    (lookupTask (setTask m i r) j).isSome = true := by
  induction m with
  | nil => simp [lookupTask] at h
  | cons kv rest ih =>
    obtain ⟨k, v⟩ := kv
    by_cases hk : k = i
    · by_cases hj : k = j <;> simp_all [setTask, lookupTask]
    · by_cases hj : k = j <;> simp_all [setTask, lookupTask]

/-- A field write through `updateTask` preserves the presence of every key. -/
theorem lookupTask_updateTask_isSome (m : List (String × TaskRec)) (i j : String)
    (f : TaskRec → TaskRec) (h : (lookupTask m j).isSome = true) :
    (lookupTask (updateTask m i f) j).isSome = true := by
  induction m with
  | nil => simp [lookupTask] at h
  | cons kv rest ih =>
    obtain ⟨k, v⟩ := kv
    by_cases hk : k = i
    · by_cases hj : k = j <;> simp_all [updateTask, lookupTask]
    · by_cases hj : k = j <;> simp_all [updateTask, lookupTask]

/-- No server operation removes a present task record. -/
theorem applyOp_preserves (m : List (String × TaskRec)) (op : ServerOp) (id : String)
    (h : (lookupTask m id).isSome = true) :
    (lookupTask (applyOp m op) id).isSome = true := by
  cases op with
  | start i ts => exact lookupTask_setTask_isSome m i id (initTaskRec ts) h
  | taskWrite i f => exact lookupTask_updateTask_isSome m i id f h
  | poll i => exact h

/-- No sequence of server operations removes a present task record. -/
theorem applyOps_preserves (ops : List ServerOp) (m : List (String × TaskRec))
    (id : String) (h : (lookupTask m id).isSome = true) :
    (lookupTask (applyOps m ops) id).isSome = true := by
  induction ops generalizing m with
  | nil => exact h
  | cons op ops ih => exact ih _ (applyOp_preserves m op id h)

/-! The claims. -/

/-- Two values whose structural comparison computes to false are distinct. -/
theorem pyBeq_ne (a b : PyVal) (h : pyBeq a b = false) (hr : pyBeq a a = true) :
    a ≠ b := by
  intro he
  rw [he] at h hr
  rw [hr] at h
  exact Bool.noConfusion h

/-- Claim C1: for every requirements string and every behaviour of the tool
sessions (including every failure), `generate_architecture` returns normally
(no exception escapes the except clause) and the returned dictionary carries
the cfTemplate, diagramUrl and pricing entries. -/
theorem c1_generate_never_raises (env : AgentEnv) :
    ∃ r, generate_architecture env = Except.ok r
      ∧ (r.get "cfTemplate").isSome = true
      ∧ (r.get "diagramUrl").isSome = true
      ∧ (r.get "pricing").isSome = true := by
  unfold generate_architecture generate_architecture_body
  cases h : env.enterClients with
  | error e => exact ⟨get_fallback_data, rfl, rfl, rfl, rfl⟩
  | ok u => exact ⟨_, rfl, rfl, rfl, rfl⟩

/-- Claim C1 witness: the guarantee evaluated at one concrete environment. -/
theorem c1_generate_never_raises_witness :
    ∃ r, generate_architecture initFailEnv = Except.ok r
      ∧ (r.get "cfTemplate").isSome = true
      ∧ (r.get "diagramUrl").isSome = true
      ∧ (r.get "pricing").isSome = true :=
  c1_generate_never_raises initFailEnv

/-- Claim C4: when the context managers enter but all three tool sessions
fail, for any requirements text, the result is exactly the fixed fallback
template (whose resources are one VPC and two subnets, no compute), the
fallback pricing with totalMonthlyCost $0.00, and the placeholder diagram
reference /diagram/sample.png. -/
theorem c4_all_sessions_fail (req e1 e2 e3 : String) (now : PyDateTime)
    (fs : DiagramOutcome) :
    generate_architecture
        { requirements := req, enterClients := .ok (), cfnSession := .error e1,
          diagramSession := .error e2, pricingSession := .error e3,
          now := now, diagramFs := fs } =
      Except.ok (.obj [("cfTemplate", .str get_fallback_cf_template),
                       ("diagramUrl", .str get_fallback_diagram_url),
                       ("pricing", get_fallback_pricing)])
    ∧ typeLines get_fallback_cf_template =
        ["AWS::EC2::VPC", "AWS::EC2::Subnet", "AWS::EC2::Subnet"]
    ∧ get_fallback_pricing.get "totalMonthlyCost" = some (.str "$0.00")
    ∧ get_fallback_diagram_url = "/diagram/sample.png" :=
  ⟨rfl, by decide, rfl, rfl⟩

/-- Claim C4 witness: the scenario at the literal input of the claim. -/
theorem c4_all_sessions_fail_witness :
    generate_architecture
        { requirements := "3-tier web app", enterClients := .ok (),
          cfnSession := .error "ConnectionError",
          diagramSession := .error "ConnectionError",
          pricingSession := .error "ConnectionError",
          now := demoNow, diagramFs := .raised } =
      Except.ok (.obj [("cfTemplate", .str get_fallback_cf_template),
                       ("diagramUrl", .str get_fallback_diagram_url),
                       ("pricing", get_fallback_pricing)]) :=
  (c4_all_sessions_fail "3-tier web app" "ConnectionError" "ConnectionError"
    "ConnectionError" demoNow .raised).1

/-- Claim C9: the diagram filename is derived from a second-granularity
timestamp only, so two generation runs that persist a diagram within the same
wall-clock second (here two distinct instants differing in microseconds)
write the same filename — the claimed per-generation uniqueness fails. -/
theorem c9_diagram_filename_collision :
    nowA ≠ nowB
    ∧ diagram_filename nowA = diagram_filename nowB
    ∧ diagram_filename nowA = "architecture_20261012_093000.png"
    ∧ extract_and_save_diagram nowA .base64Saved
        = extract_and_save_diagram nowB .base64Saved :=
  ⟨by decide, rfl, by decide, rfl⟩

/-- Claim C10: the record inserted by the start endpoint (status started,
progress zero) is in the map before the identifier is returned, and no
sequence of later server operations ever removes it, so polling an issued
identifier never reaches the not-found branch. -/
theorem c10_issued_id_resolves (m : List (String × TaskRec)) (id ts : String)
    (ops : List ServerOp) :
    lookupTask (applyOp m (.start id ts)) id = some (initTaskRec ts)
    ∧ (initTaskRec ts).status = "started"
    ∧ (initTaskRec ts).progress = 0
    ∧ (lookupTask (applyOps (applyOp m (.start id ts)) ops) id).isSome = true := by
  refine ⟨lookupTask_setTask_self m id (initTaskRec ts), rfl, rfl, ?_⟩
  apply applyOps_preserves
  rw [show applyOp m (.start id ts) = setTask m id (initTaskRec ts) from rfl,
    lookupTask_setTask_self]
  rfl

/-- Claim C10 witness: the guarantee evaluated on a concrete history. -/
theorem c10_issued_id_resolves_witness :
    (lookupTask
      (applyOps (applyOp [] (.start "id-1" "t0"))
        [.taskWrite "id-1" (fun t => { t with progress := 10 }),
         .start "id-2" "t1", .poll "id-1"]) "id-1").isSome = true :=
  (c10_issued_id_resolves [] "id-1" "t0"
    [.taskWrite "id-1" (fun t => { t with progress := 10 }),
     .start "id-2" "t1", .poll "id-1"]).2.2.2

/-- Claim C2 counterexample.  First input: a template session that returns an
empty tagged fence makes `generate_architecture` return an empty template —
not non-empty text beginning with the version marker.  Second input: when
entering the tool clients raises, the whole-pipeline fallback is returned and
its pricing has no totalMonthlyCost key at all (it uses totalMonthly), so the
claimed field is absent. -/
theorem c2_fields_counterexample :
    (generate_architecture emptyFenceEnv =
      Except.ok (.obj [("cfTemplate", .str ""),
                       ("diagramUrl", .str "/diagram/sample.png"),
                       ("pricing", get_fallback_pricing)]))
    ∧ pyGet2 get_fallback_data "pricing" "totalMonthlyCost" = none
    ∧ pyGet2 get_fallback_data "pricing" "totalMonthly" = some (.num (pyInt 125))
    ∧ generate_architecture initFailEnv = Except.ok get_fallback_data :=
  ⟨rfl, rfl, rfl, rfl⟩

/-- Claim C2 as amended: the three entries are always present — the template
as a string (possibly empty, possibly without the marker, since a matched
fenced block is returned verbatim), the diagram reference as a path under
/diagram/, and the pricing as a dictionary that carries a totalMonthlyCost
or (after the whole-pipeline fallback) a totalMonthly entry; the fallback
template itself is non-empty and begins with the marker. -/
theorem c2_fields_amended :
    (∀ env : AgentEnv, ∃ r, generate_architecture env = Except.ok r
      ∧ (∃ t, r.get "cfTemplate" = some (.str t))
      ∧ (∃ su, r.get "diagramUrl" = some (.str ("/diagram/" ++ su)))
      ∧ (∃ p, r.get "pricing" = some p
          ∧ ((p.get "totalMonthlyCost").isSome || (p.get "totalMonthly").isSome) = true))
    ∧ (get_fallback_cf_template.data.isEmpty) = false
    ∧ startsL awsMarker get_fallback_cf_template.data = true := by
  refine ⟨?_, by decide, by decide⟩
  intro env
  unfold generate_architecture generate_architecture_body
  cases h : env.enterClients with
  | error e =>
    exact ⟨get_fallback_data, rfl, ⟨generate_fallback_template, rfl⟩,
      ⟨"sample.png", rfl⟩, ⟨_, rfl, rfl⟩⟩
  | ok u =>
    refine ⟨_, rfl, ⟨generate_cf_template env.cfnSession, rfl⟩, ?_, ?_⟩
    · obtain ⟨su, hsu⟩ := generate_diagram_ref env.diagramSession env.now env.diagramFs
      exact ⟨su, by rw [show (PyVal.obj [("cfTemplate", .str (generate_cf_template env.cfnSession)),
        ("diagramUrl", .str (generate_diagram env.diagramSession env.now env.diagramFs)),
        ("pricing", calculate_pricing env.pricingSession)]).get "diagramUrl"
          = some (.str (generate_diagram env.diagramSession env.now env.diagramFs)) from rfl, hsu]⟩
    · refine ⟨calculate_pricing env.pricingSession, rfl, ?_⟩
      cases hp : env.pricingSession with
      | error e => rfl
      | ok resp =>
        show (((extract_pricing_data resp).get "totalMonthlyCost").isSome
          || ((extract_pricing_data resp).get "totalMonthly").isSome) = true
        rw [extract_pricing_total_key resp]
        rfl

/-- Claim C3 counterexample: a run whose clients were never initialized
writes progress ten, then fails and resets progress to zero — the progress
values observable by polling are not non-decreasing. -/
theorem c3_progress_counterexample :
    ((initTaskRec "s" :: run_generation_task uninitGenEnv (initTaskRec "s")).map
        TaskRec.progress = [0, 0, 10, 10, 10, 0, 0, 0, 0])
    ∧ ¬ List.Sorted (· ≤ ·)
        ((initTaskRec "s" :: run_generation_task uninitGenEnv (initTaskRec "s")).map
          TaskRec.progress) :=
  ⟨by decide, by decide⟩

/-- Claim C3 as amended: on every run the trace of task-record writes either
keeps progress non-decreasing and ends completed with progress one hundred,
or ends failed with progress reset to zero (the failure transition is the one
decrease); the trace ends at the terminal transition — the function performs
no write after it. -/
theorem c3_progress_amended (env : GenTaskEnv) (s : String) :
    (List.Sorted (· ≤ ·)
        ((initTaskRec s :: run_generation_task env (initTaskRec s)).map TaskRec.progress)
      ∧ ((run_generation_task env (initTaskRec s)).getLast?.map TaskRec.status
          = some "completed")
      ∧ ((run_generation_task env (initTaskRec s)).getLast?.map TaskRec.progress
          = some 100))
    ∨ (((run_generation_task env (initTaskRec s)).getLast?.map TaskRec.status
          = some "failed")
      ∧ ((run_generation_task env (initTaskRec s)).getLast?.map TaskRec.progress
          = some 0)) := by
  obtain ⟨ci, aenv, cts⟩ := env
  cases ci with
  | false => right; exact ⟨rfl, rfl⟩
  | true =>
    show (List.Sorted _ ((initTaskRec s :: run_generation_task ⟨true, aenv, cts⟩ (initTaskRec s)).map TaskRec.progress) ∧ _) ∨ _
    unfold run_generation_task
    cases hg : generate_architecture aenv with
    | ok r =>
      left
      refine ⟨?_, rfl, rfl⟩
      exact (by decide :
        List.Sorted (· ≤ ·) ([0, 0, 10, 10, 20, 20, 20, 100, 100, 100, 100] : List Nat))
    | error e => right; exact ⟨rfl, rfl⟩

/-- Claim C2 amended witness: the field guarantees evaluated at a concrete
environment. -/
theorem c2_fields_amended_witness :
    ∃ r, generate_architecture emptyFenceEnv = Except.ok r
      ∧ (∃ t, r.get "cfTemplate" = some (.str t))
      ∧ (∃ su, r.get "diagramUrl" = some (.str ("/diagram/" ++ su)))
      ∧ (∃ p, r.get "pricing" = some p
          ∧ ((p.get "totalMonthlyCost").isSome || (p.get "totalMonthly").isSome) = true) :=
  c2_fields_amended.1 emptyFenceEnv

/-- Claim C3 amended witness: the dichotomy evaluated on the concrete failing
run. -/
theorem c3_progress_amended_witness :
    (List.Sorted (· ≤ ·)
        ((initTaskRec "s" :: run_generation_task uninitGenEnv (initTaskRec "s")).map
          TaskRec.progress)
      ∧ ((run_generation_task uninitGenEnv (initTaskRec "s")).getLast?.map TaskRec.status
          = some "completed")
      ∧ ((run_generation_task uninitGenEnv (initTaskRec "s")).getLast?.map TaskRec.progress
          = some 100))
    ∨ (((run_generation_task uninitGenEnv (initTaskRec "s")).getLast?.map TaskRec.status
          = some "failed")
      ∧ ((run_generation_task uninitGenEnv (initTaskRec "s")).getLast?.map TaskRec.progress
          = some 0)) :=
  c3_progress_amended uninitGenEnv "s"

/-- Claim C5 counterexample: a pricing extraction miss (empty session text)
and a pricing tool-session failure do not produce the same value — the
session failure yields the VPC line item of `_get_fallback_pricing`, the
extraction miss yields the Various AWS Services line item of the regex path,
so the two failure kinds are distinguishable at the output level. -/
theorem c5_miss_counterexample :
    calculate_pricing (.error "ConnectionError") = get_fallback_pricing
    ∧ extract_pricing_data "" = regexMissPricing
    ∧ pyBeq regexMissPricing get_fallback_pricing = false
    ∧ regexMissPricing ≠ get_fallback_pricing :=
  ⟨rfl, by rfl, by rfl, pyBeq_ne _ _ (by rfl) (by rfl)⟩

/-- Claim C5 as amended: a tool-session failure substitutes the fixed
fallback dictionary, and an extraction miss produces the fixed zero-cost
regex-path dictionary; the two agree on totalMonthlyCost, currency, region
and annual but carry different breakdown line items, so the two failure
kinds remain distinguishable in the output. -/
theorem c5_miss_amended :
    (∀ e : String, calculate_pricing (.error e) = get_fallback_pricing)
    ∧ (∀ resp : String, taggedFence ("```json".data) resp.data = none →
        breakdownItems resp = [] → regexTotal resp = pyInt 0 →
        extract_pricing_data resp = regexMissPricing)
    ∧ regexMissPricing.get "totalMonthlyCost" = get_fallback_pricing.get "totalMonthlyCost"
    ∧ regexMissPricing.get "annual" = get_fallback_pricing.get "annual"
    ∧ regexMissPricing.get "currency" = get_fallback_pricing.get "currency"
    ∧ regexMissPricing.get "region" = get_fallback_pricing.get "region"
    ∧ regexMissPricing.get "breakdown" = some (.arr [variousItem])
    ∧ get_fallback_pricing.get "breakdown" =
        some (.arr [.obj [("service", .str "VPC"), ("cost", .str "$0.00"),
                          ("unit", .str "monthly"), ("details", .str "VPC is free")]])
    ∧ variousItem ≠ .obj [("service", .str "VPC"), ("cost", .str "$0.00"),
                          ("unit", .str "monthly"), ("details", .str "VPC is free")] :=
  ⟨fun _ => rfl, extract_pricing_regex_miss, rfl, rfl, rfl, rfl, rfl, rfl,
    pyBeq_ne _ _ (by rfl) (by rfl)⟩

/-- Claim C5 witness: the amended guarantees applied at concrete inputs, the
extraction-miss hypotheses discharged at the empty session text. -/
theorem c5_miss_witness :
    calculate_pricing (.error "ConnectionError") = get_fallback_pricing
    ∧ extract_pricing_data "" = regexMissPricing :=
  ⟨c5_miss_amended.1 "ConnectionError", c5_miss_amended.2.1 "" rfl rfl rfl⟩

/-- Claim C6 counterexample: the stage-three text holding only an empty JSON
object contains no monetary pattern at all (no pattern total, no
currency-symbol line), yet the extracted pricing has an empty breakdown —
zero elements, not the single fixed zero-cost line item. -/
theorem c6_no_money_counterexample :
    extract_pricing_data emptyJsonInput =
      .obj [("totalMonthlyCost", .str "$0.00"), ("currency", .str "USD"),
            ("region", .str "us-east-1"), ("breakdown", .arr []),
            ("annual", .num (pyInt 0))]
    ∧ breakdownItems emptyJsonInput = []
    ∧ regexTotal emptyJsonInput = pyInt 0
    ∧ PyVal.arr [] ≠ PyVal.arr [variousItem] :=
  ⟨by rfl, by rfl, by rfl, pyBeq_ne _ _ (by rfl) (by rfl)⟩

/-- Claim C6 as amended: when no structured JSON block is present and no
monetary pattern matches (no pattern total, no currency-symbol line), the
result is the zero-cost dictionary whose breakdown is exactly the single
fixed line item; when a structured block parses, the breakdown may instead
be empty. -/
theorem c6_no_money_amended :
    (∀ resp : String, taggedFence ("```json".data) resp.data = none →
        breakdownItems resp = [] → regexTotal resp = pyInt 0 →
        extract_pricing_data resp = regexMissPricing)
    ∧ regexMissPricing.get "totalMonthlyCost" = some (.str "$0.00")
    ∧ regexMissPricing.get "breakdown" = some (.arr [variousItem])
    ∧ (extract_pricing_data emptyJsonInput).get "breakdown" = some (.arr []) :=
  ⟨extract_pricing_regex_miss, rfl, rfl, by rfl⟩

/-- Claim C6 witness: the amended guarantee with its hypotheses discharged at
the empty session text. -/
theorem c6_no_money_witness :
    taggedFence ("```json".data) ("" : String).data = none
    ∧ breakdownItems "" = []
    ∧ regexTotal "" = pyInt 0
    ∧ extract_pricing_data "" = regexMissPricing :=
  ⟨rfl, rfl, rfl, c6_no_money_amended.1 "" rfl rfl rfl⟩

/-- Claim C7: in every pricing dictionary the extractor produces, the annual
value is the extracted monthly total times twelve when that total is
positive and zero otherwise; in particular a fenced structured block with
totalMonthlyCost 42.5 yields exactly the string dollars 42.50 and an annual
of 510. -/
theorem c7_annual_relation :
    (∀ resp : String, ∃ q : PyNum,
        (extract_pricing_data resp).get "totalMonthlyCost" = some (.str (formatDollar q))
        ∧ (extract_pricing_data resp).get "annual" =
            some (.num (if pnPos q then pnMul q (pyInt 12) else pyInt 0)))
    ∧ (extract_pricing_data totalJsonInput).get "totalMonthlyCost" = some (.str "$42.50")
    ∧ (extract_pricing_data totalJsonInput).get "annual" = some (.num (pyInt 510)) := by
  refine ⟨?_, by rfl, by rfl⟩
  intro resp
  obtain ⟨q, cur, reg, bd, h⟩ := extract_pricing_data_shape resp
  exact ⟨q, by rw [h]; rfl, by rw [h]; rfl⟩

/-- Claim C8 counterexample.  First: a tagged fence with empty content makes
`_extract_cf_template` return the empty string, against the claimed
never-empty guarantee.  Second: on text whose marker is followed by a blank
line and then eleven further lines, the extractor stops at the first blank
line with no minimum line count, while the minimum-line-count scan the claim
describes (present in the source only inside the unused helper
`_parse_agent_response`) collects the whole document — the two differ. -/
theorem c8_order_counterexample :
    extract_cf_template "```yaml\n```" = ""
    ∧ extract_cf_template markerBlankInput = "AWSTemplateFormatVersion: \x272010-09-09\x27"
    ∧ parse_agent_response_scan markerBlankInput = some markerBlankInput
    ∧ ("AWSTemplateFormatVersion: \x272010-09-09\x27" : String) ≠ markerBlankInput :=
  ⟨by rfl, by rfl, by rfl, by decide⟩

/-- Claim C8 as amended: extraction tries, first match wins, the tagged yaml
fence, then the untagged fence beginning with the marker, then a scan from
the marker to the first blank line (with no minimum line count); when none
matches it returns the fixed fallback document, which is non-empty and begins
with the marker — but a matched strategy returns the block content verbatim,
which can be the empty string. -/
theorem c8_order_amended :
    (∀ (resp : String) (t : List Char),
        taggedFence ("```yaml".data) resp.data = some t →
        extract_cf_template resp = String.mk t)
    ∧ (∀ resp : String, taggedFence ("```yaml".data) resp.data = none →
        fencedMarkerBlock resp.data = none → markerScanBlock resp.data = none →
        extract_cf_template resp = get_fallback_cf_template)
    ∧ extract_cf_template tmplAllInput = "keep: this"
    ∧ extract_cf_template tmplFenceInput = "AWSTemplateFormatVersion: fence"
    ∧ extract_cf_template tmplScanInput = "AWSTemplateFormatVersion: scan-only\nmore"
    ∧ (get_fallback_cf_template.data.isEmpty) = false
    ∧ startsL awsMarker get_fallback_cf_template.data = true := by
  refine ⟨?_, ?_, by rfl, by rfl, by rfl, by decide, by decide⟩
  · intro resp t h
    unfold extract_cf_template
    rw [h]
  · intro resp h1 h2 h3
    unfold extract_cf_template
    rw [h1, h2, h3]

/-- Claim C8 witness: the amended guarantees applied at concrete inputs, with
all hypotheses discharged there. -/
theorem c8_order_witness :
    extract_cf_template "no marker anywhere" = get_fallback_cf_template
    ∧ extract_cf_template "```yaml\nkeep: this\n```" = "keep: this" := by
  refine ⟨c8_order_amended.2.1 "no marker anywhere" rfl rfl rfl, ?_⟩
  exact c8_order_amended.1 "```yaml\nkeep: this\n```" ("keep: this".data) (by rfl)

end AISol
